import Mathlib

/-!
Shallow embedding of the chatbot response pipeline from
`src/components/chatbot/chatbot.jsx` (component `Chatbot`), together with the
classifier `classifyStatementType`, the grounded verifier
`getFactCheckCorrection` and the per-turn orchestrator `handleSend`.

Modelling conventions:
- JavaScript strings are Lean `String`; `trim`, `toUpperCase`, `toLowerCase`,
  `endsWith` and `includes` are re-implemented structurally over `List Char`
  so that all definitions evaluate in the kernel.
- A value that can be absent (`undefined`/`null` in JS) is an `Option`;
  JS truthiness of an optional string (`undefined`, `null` and `""` are
  falsy) is `optStrTruthy`.
- Each network call is an oracle supplied to the turn: the generation fetch is
  a `FetchResult`, the classification call and the verification call are
  `Except Unit _` values (`Except.error` models the call throwing).
- `Date.now()` readings are oracle fields `now1` (user-message creation) and
  `now2` (bot/error-message creation).
- React state (`messages`, `input`, the two toggles, `isLoading`) is the
  record `ChatState`; `handleSend` is a total function from a state and a
  turn oracle to a `TurnResult`, which also records the observable trace of
  the turn (whether the loading flag was raised, which prompt was sent to the
  generation endpoint, and which backend calls were made). Totality of
  `handleSend` over all oracle outcomes models the fact that no error
  propagates out of the JS `handleSend`.
-/

namespace ChatbotModel

/-- Characterwise test that `pat` occurs at the head of `l`. -/
def startsWithList : List Char → List Char → Bool
  | [], _ => true
  | _ :: _, [] => false
  | p :: ps, c :: cs => p == c && startsWithList ps cs

/-- Substring occurrence of `pat` anywhere in the list. -/
def containsList (pat : List Char) : List Char → Bool
  | [] => startsWithList pat []
  | c :: cs => startsWithList pat (c :: cs) || containsList pat cs

/-- JS `s.includes(pat)`. -/
def strContains (s pat : String) : Bool := containsList pat.data s.data

/-- JS `s.toUpperCase()` (ASCII, which covers every literal the code compares). -/
def strUpper (s : String) : String := String.mk (s.data.map Char.toUpper)

/-- JS `s.toLowerCase()` (ASCII, which covers every literal the code compares). -/
def strLower (s : String) : String := String.mk (s.data.map Char.toLower)

/-- JS `s.trim()`: strip whitespace from both ends. -/
def strTrim (s : String) : String :=
  String.mk (((s.data.dropWhile Char.isWhitespace).reverse.dropWhile
    Char.isWhitespace).reverse)

/-- JS `s.endsWith(t)`. -/
def strEndsWith (s t : String) : Bool :=
  startsWithList t.data.reverse s.data.reverse

/-- JS `Array.prototype.join(sep)`. -/
def joinSep (sep : String) : List String → String
  | [] => ""
  | [s] => s
  | s :: ss => s ++ sep ++ joinSep sep ss

/-- JS `Array.prototype.slice(-n)`: the last `n` elements (fewer if shorter). -/
def lastSlice (n : Nat) (l : List α) : List α := l.drop (l.length - n)

/-- JS truthiness of an optional string field: absent and `""` are falsy. -/
def optStrTruthy : Option String → Bool
  | none => false
  | some s => !(s == "")

/-- Line 159: `input.trim().endsWith('?') ? input.trim() : `${input.trim()}?``. -/
def normalizeInput (input : String) : String :=
  if strEndsWith (strTrim input) "?" then strTrim input else strTrim input ++ "?"

/-- `sender` field of a message. -/
inductive Sender where
  | user
  | bot
deriving DecidableEq, Repr, BEq

/-- A conversation message (lines 32-39, 161, 188-193, 198-204). `isError` is
absent on non-error messages in the JS objects, hence falsy: modelled `false`. -/
structure Message where
  id : Nat
  text : String
  sender : Sender
  correction : Option String
  isError : Bool
deriving DecidableEq, Repr

/-- The greeting seeded at initialization (lines 32-39). -/
def initialMessage : Message :=
  ⟨1, "Hello! Ask me anything. My responses can be fact-checked in real-time.",
    Sender.bot, none, false⟩

/-- React state of the `Chatbot` component. -/
structure ChatState where
  messages : List Message
  input : String
  isContextEnabled : Bool
  isFactCheckEnabled : Bool
  isLoading : Bool
deriving DecidableEq, Repr

/-- Initial component state (lines 32-43). -/
def initState : ChatState := ⟨[initialMessage], "", true, true, false⟩

/-- Outcome of the generation fetch (lines 177-181): the fetch (or `json()`)
throwing, or an HTTP response with its `ok` flag and its `response` field. -/
inductive FetchResult where
  | netError
  | resp (ok : Bool) (responseField : Option String)
deriving DecidableEq, Repr

/-- One `part` of a verification-response candidate (line 116). -/
structure RespPart where
  text : Option String
deriving DecidableEq, Repr

/-- The `content` of a candidate (line 115). -/
structure RespContent where
  parts : Option (List RespPart)
deriving DecidableEq, Repr

/-- One structured result candidate (lines 114-115). -/
structure RespCandidate where
  content : Option RespContent
deriving DecidableEq, Repr

/-- Shape of the verification backend response (lines 106-129). -/
structure VerifyResponse where
  text : Option String
  functionCalls : Option (List Unit)
  candidates : Option (List RespCandidate)
deriving DecidableEq, Repr

/-- JS truthiness of `response.functionCalls && response.functionCalls.length > 0`. -/
def fcTruthy : Option (List Unit) → Bool
  | none => false
  | some fcs => fcs.length > 0

/-- Lines 52-72, `classifyStatementType`: the backend call either throws
(`Except.error`, caught at line 68, returning `'OPINION'`) or yields the
response text, which is trimmed, uppercased and searched for `'FACT'`. -/
def classifyStatementType (call : Except Unit String) : String :=
  match call with
  | Except.error _ => "OPINION"
  | Except.ok t =>
    if strContains (strUpper (strTrim t)) "FACT" then "FACT" else "OPINION"

/-- Lines 106-129: extraction of `groundedResponse` from a verification
response. Direct text wins; else with function calls present the first
candidate's truthy text parts are joined and trimmed, falling back to a fixed
string when that yields nothing; else a second fixed fallback. -/
def extractGroundedResponse (r : VerifyResponse) : String :=
  if optStrTruthy r.text then
    strTrim (r.text.getD "")
  else if fcTruthy r.functionCalls then
    let fromParts :=
      match r.candidates.getD [] with
      | [] => ""
      | c :: _ =>
        match c.content with
        | none => ""
        | some content =>
          match content.parts with
          | none => ""
          | some parts =>
            let textParts := parts.filter (fun p => optStrTruthy p.text)
            if textParts.length > 0 then
              strTrim (joinSep " " (textParts.map (fun p => p.text.getD "")))
            else ""
    if fromParts == "" then
      "Unable to complete fact-check due to technical limitations."
    else fromParts
  else
    "Unable to verify statement at this time."

/-- Lines 74-143, `getFactCheckCorrection`: classify first; opinions
short-circuit with the fixed skip string; otherwise run the verification call
(`Except.error` models the call throwing, caught at line 139), extract the
grounded response and decide the outcome (lines 131-138). `none` models the
JS `null` return. -/
def getFactCheckCorrection (classifyCall : Except Unit String)
    (verifyCall : Except Unit VerifyResponse) : Option String :=
  if classifyStatementType classifyCall == "OPINION" then
    some "Statement is an opinion. Skipping fact-check."
  else
    match verifyCall with
    | Except.error _ => some "Fact-check service is currently unavailable."
    | Except.ok r =>
      let groundedResponse := extractGroundedResponse r
      if strUpper groundedResponse == "CORRECT"
          || strContains (strLower groundedResponse) "the statement is correct"
          || strContains (strLower groundedResponse) "this is accurate" then
        none
      else
        some groundedResponse

/-- The oracle for one turn: the two `Date.now()` readings and the outcomes of
the three possible backend calls. -/
structure TurnOracle where
  now1 : Nat
  now2 : Nat
  fetchResult : FetchResult
  classifyCall : Except Unit String
  verifyCall : Except Unit VerifyResponse

/-- Result of one `handleSend` invocation: the final state plus the turn's
observable trace. -/
structure TurnResult where
  state : ChatState
  loadingWasSet : Bool
  promptSent : Option String
  genCalled : Bool
  classifyCalled : Bool
  verifyCalled : Bool

/-- The fixed apology appended on generation failure (line 200). -/
def apologyText : String :=
  "Sorry, I\x27m having trouble connecting. Please try again later."

/-- Lines 166-171: the prompt built for the turn, from the `messages` value
captured at the start of the turn and the normalized input. -/
def builtPrompt (s : ChatState) : String :=
  if s.isContextEnabled then
    "Previous conversation:\n"
      ++ joinSep "\n\n" (List.map Message.text (lastSlice 4 s.messages))
      ++ "\n\nCurrent question: " ++ normalizeInput s.input
  else normalizeInput s.input

/-- Lines 155-209, `handleSend`. The guard is line 157; the context prompt is
built from the `messages` value captured at the start of the turn (lines
166-171); the fetch, payload check, optional fact-check and message appends
are lines 173-205; the `finally` (line 206) clears `isLoading` on every path. -/
def handleSend (s : ChatState) (o : TurnOracle) : TurnResult :=
  if strTrim s.input == "" || s.isLoading then
    ⟨s, false, none, false, false, false⟩
  else
    let processedInput := normalizeInput s.input
    let userMessage : Message := ⟨o.now1, processedInput, Sender.user, none, false⟩
    let afterUser : List Message := s.messages ++ [userMessage]
    let promptWithContext := builtPrompt s
    let errorMessage : Message := ⟨o.now2 + 1, apologyText, Sender.bot, none, true⟩
    match o.fetchResult with
    | FetchResult.netError =>
      ⟨⟨afterUser ++ [errorMessage], "", s.isContextEnabled, s.isFactCheckEnabled,
          false⟩,
        true, some promptWithContext, true, false, false⟩
    | FetchResult.resp ok responseField =>
      if !ok || !optStrTruthy responseField then
        ⟨⟨afterUser ++ [errorMessage], "", s.isContextEnabled, s.isFactCheckEnabled,
            false⟩,
          true, some promptWithContext, true, false, false⟩
      else
        let generated := responseField.getD ""
        if s.isFactCheckEnabled then
          let correction := getFactCheckCorrection o.classifyCall o.verifyCall
          let botMessage : Message := ⟨o.now2 + 1, generated, Sender.bot, correction,
            false⟩
          ⟨⟨afterUser ++ [botMessage], "", s.isContextEnabled, s.isFactCheckEnabled,
              false⟩,
            true, some promptWithContext, true, true,
            classifyStatementType o.classifyCall == "FACT"⟩
        else
          let botMessage : Message := ⟨o.now2 + 1, generated, Sender.bot, none, false⟩
          ⟨⟨afterUser ++ [botMessage], "", s.isContextEnabled, s.isFactCheckEnabled,
              false⟩,
            true, some promptWithContext, true, false, false⟩

/-- User-interface operations reachable on the component: typing into the
input box, flipping either toggle, and submitting a turn. -/
inductive Op where
  | setInput (text : String)
  | toggleContext
  | toggleFactCheck
  | submit (o : TurnOracle)

/-- One operation applied to the component state. -/
def step (s : ChatState) : Op → ChatState
  | Op.setInput t =>
    ⟨s.messages, t, s.isContextEnabled, s.isFactCheckEnabled, s.isLoading⟩
  | Op.toggleContext =>
    ⟨s.messages, s.input, !s.isContextEnabled, s.isFactCheckEnabled, s.isLoading⟩
  | Op.toggleFactCheck =>
    ⟨s.messages, s.input, s.isContextEnabled, !s.isFactCheckEnabled, s.isLoading⟩
  | Op.submit o => (handleSend s o).state

/-- A sequence of operations from a state. -/
def runOps (s : ChatState) : List Op → ChatState
  | [] => s
  | op :: ops => runOps (step s op) ops


/-- Stated with the spec's wording of the result-extraction step for tool
invocations, for comparison with `extractGroundedResponse`: the inline text
fragments are looked for among ALL the structured result candidates, as the
spec sentence says, not just the first one. -/
def specExtractGroundedResponse (r : VerifyResponse) : String :=
  if optStrTruthy r.text then
    strTrim (r.text.getD "")
  else if fcTruthy r.functionCalls then
    let fragments := ((r.candidates.getD []).map (fun c =>
      match c.content with
      | none => []
      | some content =>
        ((content.parts.getD []).filter (fun p => optStrTruthy p.text)).map
          (fun p => p.text.getD ""))).flatten
    if fragments.isEmpty then
      "Unable to complete fact-check due to technical limitations."
    else joinSep " " fragments
  else
    "Unable to verify statement at this time."

/-- The truthy text fragments of the FIRST candidate, which is all the code at
lines 114-120 ever scans. -/
def firstCandFragments (r : VerifyResponse) : List String :=
  match r.candidates.getD [] with
  | [] => []
  | c :: _ =>
    match c.content with
    | none => []
    | some content =>
      ((content.parts.getD []).filter (fun p => optStrTruthy p.text)).map
        (fun p => p.text.getD "")

/-- A verification response whose first candidate has no text parts while its
second candidate does carry one. -/
def splitCandidatesResponse : VerifyResponse :=
  ⟨none, some [()],
    some [⟨some ⟨some []⟩⟩, ⟨some ⟨some [⟨some "The statement is false."⟩]⟩⟩]⟩

/-- One operation is clock-respecting when a submission's first id-source
reading exceeds every id already in the conversation and its second reading is
at least the first. -/
def clockOk (s : ChatState) : Op → Bool
  | Op.submit o =>
    s.messages.all (fun m => decide (m.id < o.now1)) && decide (o.now1 ≤ o.now2)
  | _ => true

/-- A run is clock-respecting when every operation along it is. -/
def clockRespecting : ChatState → List Op → Bool
  | _, [] => true
  | s, op :: ops => clockOk s op && clockRespecting (step s op) ops

/-- An operation sequence realizable with a monotone millisecond clock: the
second turn begins in the millisecond right after the first turn's bot message
was stamped (first turn reads 5/5, second turn reads 6/6). -/
def badClockOps : List Op :=
  [Op.toggleContext, Op.setInput "a",
   Op.submit ⟨5, 5, FetchResult.resp false none, Except.error (), Except.error ()⟩,
   Op.setInput "b",
   Op.submit ⟨6, 6, FetchResult.resp false none, Except.error (), Except.error ()⟩]

/-- A clock-respecting operation sequence: one typed input and one submission
whose clock readings exceed all existing ids. -/
def okClockOps : List Op :=
  [Op.setInput "hi",
   Op.submit ⟨5, 7, FetchResult.resp true (some "ok"), Except.error (), Except.error ()⟩]

/-- The guard condition of line 157 is false once the input is non-blank and
no turn is in flight. -/
theorem handleSend_guard_false (s : ChatState) (h1 : strTrim s.input ≠ "")
    (h2 : s.isLoading = false) :
    (strTrim s.input == "" || s.isLoading) = false := by
  simp [h1, h2]

/-- Every non-rejected turn sends exactly the prompt built by lines 166-171
from the turn-start state. -/
theorem handleSend_promptSent (s : ChatState) (o : TurnOracle)
    (h1 : strTrim s.input ≠ "") (h2 : s.isLoading = false) :
    (handleSend s o).promptSent = some (builtPrompt s) := by
  unfold handleSend
  rw [handleSend_guard_false s h1 h2]
  cases o.fetchResult with
  | netError => simp
  | resp ok field =>
    by_cases hok : (!ok || !optStrTruthy field) = true
    · simp [hok]
    · by_cases hfc : s.isFactCheckEnabled <;> simp [hok, hfc]

/-- A turn either leaves the conversation unchanged (guard rejection) or
appends exactly the user message and one bot/error message stamped `now2 + 1`. -/
theorem handleSend_messages_shape (s : ChatState) (o : TurnOracle) :
    (handleSend s o).state.messages = s.messages ∨
    ∃ m2 : Message, m2.id = o.now2 + 1 ∧
      (handleSend s o).state.messages =
        s.messages ++ [⟨o.now1, normalizeInput s.input, Sender.user, none, false⟩, m2] := by
  unfold handleSend
  by_cases hg : (strTrim s.input == "" || s.isLoading) = true
  · simp [hg]
  · rw [Bool.not_eq_true] at hg
    cases o.fetchResult with
    | netError =>
      exact Or.inr ⟨⟨o.now2 + 1, apologyText, Sender.bot, none, true⟩, rfl, by simp [hg]⟩
    | resp ok field =>
      by_cases hok : (!ok || !optStrTruthy field) = true
      · exact Or.inr ⟨⟨o.now2 + 1, apologyText, Sender.bot, none, true⟩, rfl,
          by simp [hg, hok]⟩
      · by_cases hfc : s.isFactCheckEnabled
        · exact Or.inr ⟨⟨o.now2 + 1, field.getD "", Sender.bot,
            getFactCheckCorrection o.classifyCall o.verifyCall, false⟩, rfl,
            by simp [hg, hok, hfc]⟩
        · exact Or.inr ⟨⟨o.now2 + 1, field.getD "", Sender.bot, none, false⟩, rfl,
            by simp [hg, hok, hfc]⟩

/-- An element of `getLast?` is an element of the list. -/
theorem memOfGetLast {α : Type} {l : List α} {x : α} (h : x ∈ l.getLast?) : x ∈ l := by
  rcases List.mem_getLast?_eq_getLast h with ⟨hne, rfl⟩
  exact List.getLast_mem hne

/-- Appending two fresh strictly larger elements keeps a chain strictly
increasing. -/
theorem chainAppendPair (l : List Nat) (a b : Nat)
    (h : List.Chain' (· < ·) l) (ha : ∀ x ∈ l, x < a) (hab : a < b) :
    List.Chain' (· < ·) (l ++ [a, b]) := by
  rw [List.chain'_append]
  refine ⟨h, List.chain'_pair.mpr hab, ?_⟩
  intro x hx y hy
  have hy' : a = y := by simpa using hy
  subst hy'
  exact ha x (memOfGetLast hx)

/-- A clock-respecting operation preserves strict increase of the id list. -/
theorem stepPreservesChain (s : ChatState) (op : Op)
    (h : List.Chain' (· < ·) (s.messages.map Message.id))
    (hok : clockOk s op = true) :
    List.Chain' (· < ·) ((step s op).messages.map Message.id) := by
  cases op with
  | setInput t => exact h
  | toggleContext => exact h
  | toggleFactCheck => exact h
  | submit o =>
    simp only [clockOk, Bool.and_eq_true, List.all_eq_true, decide_eq_true_eq] at hok
    rcases handleSend_messages_shape s o with hm | ⟨m2, hid, hm⟩
    · simpa [step, hm] using h
    · have hms : (step s (Op.submit o)).messages.map Message.id =
          (s.messages.map Message.id) ++ [o.now1, o.now2 + 1] := by
        simp [step, hm, hid]
      rw [hms]
      have h2 := hok.2
      refine chainAppendPair _ _ _ h ?_ (by omega)
      intro x hx
      rcases List.mem_map.1 hx with ⟨m, hmem, rfl⟩
      exact hok.1 m hmem

/-- Strict increase of the id list is an inductive invariant of clock-respecting
runs. -/
theorem runOpsChain (ops : List Op) :
    ∀ s : ChatState, List.Chain' (· < ·) (s.messages.map Message.id) →
      clockRespecting s ops = true →
      List.Chain' (· < ·) ((runOps s ops).messages.map Message.id) := by
  induction ops with
  | nil => intro s h _; exact h
  | cons op ops ih =>
    intro s h hcr
    rw [clockRespecting, Bool.and_eq_true] at hcr
    exact ih (step s op) (stepPreservesChain s op h hcr.1) hcr.2

/-- Claim C1: every invocation of `handleSend` that passes the guard (non-blank
input, not loading) raises the loading flag and ends with it cleared, on every
exit path: the universally quantified oracle covers generation success, HTTP
failure, invalid payload, network error, and classification/verification
failures, and `handleSend` being a total Lean function over all these oracle
outcomes models that no error propagates out of `submit`. -/
theorem handleSend_sets_and_clears_loading (s : ChatState) (o : TurnOracle)
    (h1 : strTrim s.input ≠ "") (h2 : s.isLoading = false) :
    (handleSend s o).loadingWasSet = true ∧ (handleSend s o).state.isLoading = false := by
  unfold handleSend
  rw [handleSend_guard_false s h1 h2]
  cases o.fetchResult with
  | netError => simp
  | resp ok field =>
    by_cases hok : (!ok || !optStrTruthy field) = true
    · simp [hok]
    · by_cases hfc : s.isFactCheckEnabled <;> simp [hok, hfc]

/-- Witness for C1 at a concrete state and oracle. -/
theorem handleSend_sets_and_clears_loading_witness :
    (handleSend ⟨[initialMessage], "hi", true, true, false⟩
        ⟨5, 7, FetchResult.resp true (some "ok"), Except.error (), Except.error ()⟩).loadingWasSet
      = true
    ∧ (handleSend ⟨[initialMessage], "hi", true, true, false⟩
        ⟨5, 7, FetchResult.resp true (some "ok"), Except.error (), Except.error ()⟩).state.isLoading
      = false :=
  handleSend_sets_and_clears_loading _ _ (by decide) rfl

/-- Claim C2: a call made while already loading (`PipelineStatus = Sending`),
or whose input is blank after trimming, leaves the entire state unchanged and
makes no backend call: the result is the untouched state with an empty trace
(no prompt sent, no generation, classification or verification call, loading
flag untouched). -/
theorem handleSend_rejected_call_no_effect (s : ChatState) (o : TurnOracle)
    (h : strTrim s.input = "" ∨ s.isLoading = true) :
    handleSend s o = ⟨s, false, none, false, false, false⟩ := by
  unfold handleSend
  rcases h with h | h <;> simp [h]

/-- Witness for C2 at a whitespace-only input. -/
theorem handleSend_rejected_call_no_effect_witness :
    handleSend ⟨[initialMessage], "   ", true, true, false⟩
        ⟨5, 7, FetchResult.resp true (some "ok"), Except.error (), Except.error ()⟩
      = ⟨⟨[initialMessage], "   ", true, true, false⟩, false, none, false, false, false⟩ :=
  handleSend_rejected_call_no_effect _ _ (Or.inl (by decide))

/-- Claim C3: when the statement classified as FACT, a completed verification
call returns `none` (NoCorrectionNeeded) exactly when the extracted text
uppercased equals "CORRECT", or lowercased contains "the statement is correct"
or "this is accurate"; every other extracted text is returned as the
correction, verbatim. -/
theorem verifier_outcome_decision (c : Except Unit String) (r : VerifyResponse)
    (hc : classifyStatementType c = "FACT") :
    getFactCheckCorrection c (Except.ok r) =
      (if strUpper (extractGroundedResponse r) = "CORRECT"
          ∨ strContains (strLower (extractGroundedResponse r)) "the statement is correct" = true
          ∨ strContains (strLower (extractGroundedResponse r)) "this is accurate" = true
        then none else some (extractGroundedResponse r)) := by
  unfold getFactCheckCorrection
  rw [hc]
  simp only [Bool.or_eq_true, beq_iff_eq]
  simp [or_assoc]

/-- Witness for C3: a confirming phrasing maps to a null correction. -/
theorem verifier_outcome_decision_witness :
    getFactCheckCorrection (Except.ok "FACT")
        (Except.ok ⟨some "Yes, the statement is correct here.", none, none⟩) = none := by
  rw [verifier_outcome_decision (Except.ok "FACT") _ (by decide)]
  decide

/-- Claim C4, counterexample: the code scans only the FIRST structured result
candidate (lines 114-120), not all candidates as the claim's extraction step
says: on a response whose first candidate carries no text fragment while the
second does, the code yields the technical-limitations fallback where the
claim's extraction yields the second candidate's fragment, and the pipeline
surfaces the fallback as the correction. -/
theorem verifier_extraction_first_candidate_cx :
    extractGroundedResponse splitCandidatesResponse =
      "Unable to complete fact-check due to technical limitations."
    ∧ specExtractGroundedResponse splitCandidatesResponse = "The statement is false."
    ∧ extractGroundedResponse splitCandidatesResponse ≠
        specExtractGroundedResponse splitCandidatesResponse
    ∧ getFactCheckCorrection (Except.ok "FACT") (Except.ok splitCandidatesResponse) =
        some "Unable to complete fact-check due to technical limitations." := by
  refine ⟨by decide, by decide, by decide, by decide⟩

/-- Claim C4, amended: extraction priority as the code has it. Direct truthy
text is used trimmed; else, with tool/function invocations reported, the
inline text fragments of the FIRST structured candidate are joined with
spaces and trimmed, and if that yields the empty string the extracted text is
the fixed technical-limitations string; else (no text, no tool invocations)
it is the fixed unable-to-verify string. If the verification call itself
throws, the outcome is the fixed service-unavailable correction and the turn
is not aborted. -/
theorem verifier_extraction_amended (r : VerifyResponse) (c : Except Unit String)
    (hc : classifyStatementType c = "FACT") :
    (optStrTruthy r.text = true →
        extractGroundedResponse r = strTrim (r.text.getD ""))
    ∧ (optStrTruthy r.text = false → fcTruthy r.functionCalls = true →
        extractGroundedResponse r =
          (if strTrim (joinSep " " (firstCandFragments r)) = "" then
            "Unable to complete fact-check due to technical limitations."
          else strTrim (joinSep " " (firstCandFragments r))))
    ∧ (optStrTruthy r.text = false → fcTruthy r.functionCalls = false →
        extractGroundedResponse r = "Unable to verify statement at this time.")
    ∧ getFactCheckCorrection c (Except.error ()) =
        some "Fact-check service is currently unavailable." := by
  refine ⟨?_, ?_, ?_, ?_⟩
  · intro h
    unfold extractGroundedResponse
    simp [h]
  · intro h hfc
    obtain ⟨rtext, rfcs, rcands⟩ := r
    unfold extractGroundedResponse firstCandFragments
    rcases rcands with _ | rlist
    · simp only at h hfc ⊢
      simp [h, hfc]
      decide
    · rcases rlist with _ | ⟨⟨rcontent⟩, cs⟩
      · simp only at h hfc ⊢
        simp [h, hfc]
        decide
      · rcases rcontent with _ | ⟨rparts⟩
        · simp only at h hfc ⊢
          simp [h, hfc]
          decide
        · rcases rparts with _ | rparts
          · simp only at h hfc ⊢
            simp [h, hfc]
            decide
          · simp only at h hfc ⊢
            by_cases hp : 0 < (rparts.filter (fun p => optStrTruthy p.text)).length
            · simp [h, hfc, hp, beq_iff_eq]
            · have hnil : rparts.filter (fun p => optStrTruthy p.text) = [] :=
                List.eq_nil_of_length_eq_zero (by omega)
              simp [h, hfc, hp, hnil]
              decide
  · intro h hfc
    unfold extractGroundedResponse
    simp [h, hfc]
  · unfold getFactCheckCorrection
    rw [hc]
    simp

/-- Witness for the amended C4: direct text wins and is trimmed; a thrown
verification call maps to the fixed service-unavailable correction. -/
theorem verifier_extraction_amended_witness :
    extractGroundedResponse ⟨some " CORRECT ", none, none⟩ = "CORRECT"
    ∧ getFactCheckCorrection (Except.ok "FACT") (Except.error ()) =
        some "Fact-check service is currently unavailable." := by
  have h := verifier_extraction_amended ⟨some " CORRECT ", none, none⟩
    (Except.ok "FACT") (by decide)
  exact ⟨(h.1 (by decide)).trans (by decide), h.2.2.2⟩

/-- Claim C5: the classifier returns FACT exactly when the trimmed, uppercased
backend response text contains the substring "FACT", returns OPINION on every
other response text, and deterministically returns OPINION when the
underlying call throws. -/
theorem classifier_substring_policy_and_fallback :
    (∀ t : String,
      (classifyStatementType (Except.ok t) = "FACT" ↔
        strContains (strUpper (strTrim t)) "FACT" = true)
      ∧ (strContains (strUpper (strTrim t)) "FACT" = false →
          classifyStatementType (Except.ok t) = "OPINION"))
    ∧ classifyStatementType (Except.error ()) = "OPINION" := by
  refine ⟨fun t => ⟨?_, ?_⟩, rfl⟩ <;>
    · unfold classifyStatementType
      by_cases h : strContains (strUpper (strTrim t)) "FACT" = true <;> simp [h]

/-- Witness for C5 at concrete response texts and a thrown call. -/
theorem classifier_substring_policy_and_fallback_witness :
    classifyStatementType (Except.ok " it is a fact ") = "FACT"
    ∧ classifyStatementType (Except.ok "just my view") = "OPINION"
    ∧ classifyStatementType (Except.error ()) = "OPINION" :=
  ⟨(classifier_substring_policy_and_fallback.1 " it is a fact ").1.mpr (by decide),
   (classifier_substring_policy_and_fallback.1 "just my view").2 (by decide),
   classifier_substring_policy_and_fallback.2⟩

/-- Claim C6: with context enabled, the sent prompt is the fixed template over
the texts of exactly the last 4 messages (fewer if shorter: the window is a
suffix of the history of length `min 4 |history|`) joined by blank lines,
followed by the normalized input; with context disabled the sent prompt is the
normalized input verbatim. -/
theorem context_window_prompt (s : ChatState) (o : TurnOracle)
    (h1 : strTrim s.input ≠ "") (h2 : s.isLoading = false) :
    (s.isContextEnabled = true →
        (handleSend s o).promptSent = some ("Previous conversation:\n"
          ++ joinSep "\n\n" (List.map Message.text (lastSlice 4 s.messages))
          ++ "\n\nCurrent question: " ++ normalizeInput s.input)
      ∧ (lastSlice 4 s.messages).length = min 4 s.messages.length
      ∧ ∃ pre, s.messages = pre ++ lastSlice 4 s.messages)
    ∧ (s.isContextEnabled = false →
        (handleSend s o).promptSent = some (normalizeInput s.input)) := by
  constructor
  · intro hctx
    refine ⟨?_, ?_, ?_⟩
    · rw [handleSend_promptSent s o h1 h2]
      simp [builtPrompt, hctx]
    · simp [lastSlice]
      omega
    · exact ⟨s.messages.take (s.messages.length - 4),
        (List.take_append_drop _ _).symm⟩
  · intro hctx
    rw [handleSend_promptSent s o h1 h2]
    simp [builtPrompt, hctx]

/-- Witness for C6: from the initial state the context prompt embeds the
greeting and the normalized question. -/
theorem context_window_prompt_witness :
    (handleSend ⟨[initialMessage], "capital of France", true, true, false⟩
        ⟨5, 7, FetchResult.resp true (some "Paris."), Except.error (),
          Except.error ()⟩).promptSent =
      some ("Previous conversation:\nHello! Ask me anything. My responses can be "
        ++ "fact-checked in real-time.\n\nCurrent question: capital of France?") := by
  rw [((context_window_prompt _ _ (by decide) rfl).1 rfl).1]
  decide

/-- Claim C7: when the generation endpoint answers with a non-success status,
or with a success payload whose `response` field is missing or empty, the turn
appends the user message and exactly one additional bot message, which carries
the fixed apology text, `isError = true` and a null correction, and neither
the classification nor the verification call happens. -/
theorem generation_failure_turn (s : ChatState) (o : TurnOracle)
    (h1 : strTrim s.input ≠ "") (h2 : s.isLoading = false)
    (ok : Bool) (field : Option String)
    (hfr : o.fetchResult = FetchResult.resp ok field)
    (hfail : ok = false ∨ optStrTruthy field = false) :
    (handleSend s o).state.messages = s.messages ++
      [⟨o.now1, normalizeInput s.input, Sender.user, none, false⟩,
       ⟨o.now2 + 1, apologyText, Sender.bot, none, true⟩]
    ∧ (((handleSend s o).state.messages.drop s.messages.length).filter
        (fun m => m.sender == Sender.bot)) =
        [⟨o.now2 + 1, apologyText, Sender.bot, none, true⟩]
    ∧ (handleSend s o).classifyCalled = false
    ∧ (handleSend s o).verifyCalled = false := by
  have hmain : handleSend s o =
      ⟨⟨s.messages ++ [⟨o.now1, normalizeInput s.input, Sender.user, none, false⟩,
          ⟨o.now2 + 1, apologyText, Sender.bot, none, true⟩], "",
          s.isContextEnabled, s.isFactCheckEnabled, false⟩,
        true, some (builtPrompt s), true, false, false⟩ := by
    unfold handleSend
    rw [handleSend_guard_false s h1 h2, hfr]
    rcases hfail with h | h <;> simp [h]
  rw [hmain]
  refine ⟨rfl, ?_, rfl, rfl⟩
  have hdrop : (s.messages ++
      [(⟨o.now1, normalizeInput s.input, Sender.user, none, false⟩ : Message),
       ⟨o.now2 + 1, apologyText, Sender.bot, none, true⟩]).drop s.messages.length =
      [⟨o.now1, normalizeInput s.input, Sender.user, none, false⟩,
       ⟨o.now2 + 1, apologyText, Sender.bot, none, true⟩] := List.drop_left _ _
  rw [hdrop]
  rfl

/-- Witness for C7 at an HTTP failure. -/
theorem generation_failure_turn_witness :
    (handleSend ⟨[initialMessage], "hi", true, true, false⟩
        ⟨5, 7, FetchResult.resp false none, Except.error (), Except.error ()⟩).state.messages =
      [initialMessage] ++ [⟨5, "hi?", Sender.user, none, false⟩,
        ⟨8, apologyText, Sender.bot, none, true⟩] := by
  rw [(generation_failure_turn _ _ (by decide) rfl false none rfl (Or.inl rfl)).1]
  decide

/-- Claim C8: with fact-checking disabled and generation succeeding, the
appended bot message has a null correction, and neither the classification
nor the verification call happens. -/
theorem factcheck_disabled_turn (s : ChatState) (o : TurnOracle)
    (h1 : strTrim s.input ≠ "") (h2 : s.isLoading = false)
    (h3 : s.isFactCheckEnabled = false)
    (t : String) (ht : t ≠ "")
    (hfr : o.fetchResult = FetchResult.resp true (some t)) :
    (handleSend s o).state.messages = s.messages ++
      [⟨o.now1, normalizeInput s.input, Sender.user, none, false⟩,
       ⟨o.now2 + 1, t, Sender.bot, none, false⟩]
    ∧ (handleSend s o).classifyCalled = false
    ∧ (handleSend s o).verifyCalled = false := by
  unfold handleSend
  rw [handleSend_guard_false s h1 h2, hfr]
  simp [optStrTruthy, ht, h3]

/-- Witness for C8 at a concrete successful generation. -/
theorem factcheck_disabled_turn_witness :
    (handleSend ⟨[initialMessage], "hi", true, false, false⟩
        ⟨5, 7, FetchResult.resp true (some "All good."), Except.error (),
          Except.error ()⟩).state.messages =
      [initialMessage] ++ [⟨5, "hi?", Sender.user, none, false⟩,
        ⟨8, "All good.", Sender.bot, none, false⟩] := by
  rw [(factcheck_disabled_turn _ _ (by decide) rfl rfl "All good." (by decide) rfl).1]
  decide

/-- Claim C9, counterexample: ids are stamped from the millisecond clock
(`Date.now()` for the user message, a later reading plus one for the bot
message), so a reachable run with nondecreasing clock readings 5, 5 then 6, 6
yields ids 1, 5, 6, 6, 7: neither unique nor strictly increasing. -/
theorem message_ids_can_collide_cx :
    ((runOps initState badClockOps).messages.map Message.id) = [1, 5, 6, 6, 7]
    ∧ ¬ ((runOps initState badClockOps).messages.map Message.id).Nodup
    ∧ ¬ List.Chain' (· < ·) ((runOps initState badClockOps).messages.map Message.id) := by
  have hmap : ((runOps initState badClockOps).messages.map Message.id) = [1, 5, 6, 6, 7] := by
    decide
  refine ⟨hmap, ?_, ?_⟩
  · rw [hmap]
    intro h
    have h6 := (List.nodup_cons.mp (List.nodup_cons.mp (List.nodup_cons.mp h).2).2).1
    simp at h6
  · rw [hmap]
    intro h
    rw [List.chain'_cons, List.chain'_cons, List.chain'_cons] at h
    exact absurd h.2.2.1 (lt_irrefl 6)

/-- Claim C9, amended: along every reachable operation sequence whose
submissions are clock-respecting (each turn's first clock reading exceeds
every id already in the conversation, and its second reading is at least the
first), message ids are strictly increasing in creation order, hence unique. -/
theorem message_ids_increasing_under_clock (ops : List Op)
    (h : clockRespecting initState ops = true) :
    List.Chain' (· < ·) ((runOps initState ops).messages.map Message.id) :=
  runOpsChain ops initState (by simp [initState, initialMessage]) h

/-- Witness for the amended C9 on a concrete clock-respecting run. -/
theorem message_ids_increasing_under_clock_witness :
    List.Chain' (· < ·) ((runOps initState okClockOps).messages.map Message.id) :=
  message_ids_increasing_under_clock okClockOps (by decide)

/-- Claim C10: with context enabled, the history block of the sent prompt is
built from the conversation as it stood at the start of the turn — the
`messages` snapshot captured before the turn's own user message was appended —
even though the resulting conversation state does contain that user message
right after the turn-start history; the turn-start conversation of the very
first turn is exactly the initial greeting. -/
theorem context_history_is_turn_start (s : ChatState) (o : TurnOracle)
    (h1 : strTrim s.input ≠ "") (h2 : s.isLoading = false)
    (hctx : s.isContextEnabled = true) :
    (handleSend s o).promptSent = some ("Previous conversation:\n"
        ++ joinSep "\n\n" (List.map Message.text (lastSlice 4 s.messages))
        ++ "\n\nCurrent question: " ++ normalizeInput s.input)
    ∧ (∃ rest, (handleSend s o).state.messages =
        s.messages ++ ⟨o.now1, normalizeInput s.input, Sender.user, none, false⟩ :: rest)
    ∧ initState.messages = [initialMessage] := by
  refine ⟨?_, ?_, rfl⟩
  · rw [handleSend_promptSent s o h1 h2]
    simp [builtPrompt, hctx]
  · unfold handleSend
    rw [handleSend_guard_false s h1 h2]
    cases o.fetchResult with
    | netError =>
      exact ⟨[⟨o.now2 + 1, apologyText, Sender.bot, none, true⟩], by simp⟩
    | resp ok field =>
      by_cases hok : (!ok || !optStrTruthy field) = true
      · exact ⟨[⟨o.now2 + 1, apologyText, Sender.bot, none, true⟩], by simp [hok]⟩
      · by_cases hfc : s.isFactCheckEnabled
        · exact ⟨[⟨o.now2 + 1, field.getD "", Sender.bot,
            getFactCheckCorrection o.classifyCall o.verifyCall, false⟩],
            by simp [hok, hfc]⟩
        · exact ⟨[⟨o.now2 + 1, field.getD "", Sender.bot, none, false⟩],
            by simp [hok, hfc]⟩

/-- Witness for C10: in a first turn the history block is exactly the greeting,
not the current question. -/
theorem context_history_is_turn_start_witness :
    (handleSend ⟨[initialMessage], "what is 2+2", true, true, false⟩
        ⟨5, 7, FetchResult.resp true (some "4."), Except.error (),
          Except.error ()⟩).promptSent =
      some ("Previous conversation:\nHello! Ask me anything. My responses can be "
        ++ "fact-checked in real-time.\n\nCurrent question: what is 2+2?") := by
  rw [(context_history_is_turn_start _ _ (by decide) rfl rfl).1]
  decide

end ChatbotModel
